import Mathlib

/-!
Verification of the hospital queue management system (`src/database.py`,
`src/hospital_queue.py`).  The SQLite tables are embedded as Lean lists of
records; each database method becomes a Lean function on an explicit `DB`
state.  SQL `CURRENT_TIMESTAMP` is threaded as a `now : Nat` parameter and
`datetime.now().strftime(...)` as a `today : String` parameter; rows are
kept in insertion order, matching SQLite's unordered scans plus the explicit
`ORDER BY` clauses that the code issues.
-/

/-- The `status` column of the `patients` table
(`CHECK(status IN ('waiting','in_consultation','completed','cancelled'))`). -/
inductive Status where
  | waiting
  | in_consultation
  | completed
  | cancelled
deriving DecidableEq

/-- A row of the `patients` table (columns used by the queue engine). -/
structure Patient where
  token : String
  full_name : String
  age : Option Nat := none
  gender : Option String := none
  phone_number : Option String := none
  emergency_contact : Option String := none
  medical_condition : Option String := none
  priority_level : Nat := 2
  department : Option String := none
  doctor_assigned : Option String := none
  registration_time : Nat := 0
  registration_date : String := ""
  consultation_start_time : Option Nat := none
  consultation_end_time : Option Nat := none
  status : Status := Status.waiting
  estimated_wait_time : Nat := 0
  notes : Option String := none
  is_emergency : Bool := false
  is_follow_up : Bool := false
deriving DecidableEq

/-- A row of the `departments` table. -/
structure Department where
  department_name : String
  department_code : String
  current_wait_time : Nat := 30
  active_doctors : Nat := 1
deriving DecidableEq

/-- A row of the `doctors` table. -/
structure Doctor where
  doctor_name : String
  department_id : Nat := 0
  specialization : Option String := none
  is_available : Bool := true
  current_patient_token : Option String := none
deriving DecidableEq

/-- A row of the `queue_history` table. -/
structure HistoryEntry where
  token : String
  action : String
  previous_status : Option Status := none
  new_status : Option Status := none
  queue_position_before : Option Int := none
  queue_position_after : Option Int := none
  notes : Option String := none
deriving DecidableEq

/-- A row of the `statistics` table.  The integer-valued columns are carried
exactly; the SQL floating-point aggregates (`avg/max/min` of julianday
differences) and `peak_hour` are omitted because no claim refers to their
values and they are computed in SQLite floating point. -/
structure StatRow where
  date : String
  total_patients : Nat := 0
  emergency_cases : Nat := 0
  regular_cases : Nat := 0
  follow_up_cases : Nat := 0
  doctors_available : Nat := 0
deriving DecidableEq

/-- The whole SQLite database state. -/
structure DB where
  patients : List Patient := []
  departments : List Department := []
  doctors : List Doctor := []
  queue_history : List HistoryEntry := []
  statistics : List StatRow := []
deriving DecidableEq

/-- Byte-wise (SQLite BINARY collation) strict order on ASCII character
lists, as used by `ORDER BY token_number DESC`. -/
def lexLtB : List Char → List Char → Bool
  | [], [] => false
  | [], _ :: _ => true
  | _ :: _, [] => false
  | a :: as, b :: bs => if a < b then true else if b < a then false else lexLtB as bs

/-- Python's `str.split('-')`: split a character list on every `'-'`. -/
def splitDash : List Char → List (List Char)
  | [] => [[]]
  | c :: cs =>
    match splitDash cs with
    | [] => [[]]
    | r :: rs => if c = '-' then [] :: r :: rs else (c :: r) :: rs

/-- Python's `int(...)` restricted to the digit strings that occur as token
suffixes (returns `none` where `int` would raise). -/
def parseNatChars (l : List Char) : Option Nat :=
  if !l.isEmpty && l.all (fun c => c.isDigit) then
    some (l.foldl (fun acc c => acc * 10 + (c.toNat - 48)) 0)
  else
    none

/-- Python's `f"{n:03d}"`: decimal digits left-padded with zeros to width 3. -/
def format03d (n : Nat) : List Char :=
  let s := (Nat.repr n).data
  List.replicate (3 - s.length) '0' ++ s

/-- SQL `LIKE 'pfx%'` for a wildcard-free pattern: prefix test on characters. -/
def startsWithChars : List Char → List Char → Bool
  | [], _ => true
  | _ :: _, [] => false
  | a :: as, b :: bs => a == b && startsWithChars as bs

/-- `HospitalDatabase.generate_token` (database.py:164-195): build the prefix
`{code-or-HOSP}-{today}-`, take the `ORDER BY token_number DESC LIMIT 1` row
among tokens `LIKE 'prefix%'`, parse the part after the last `'-'`, add one
(or start at 1), and format the sequence with `%03d`. -/
def generate_token (today : String) (db : DB) (department_code : Option String) : String :=
  let pfx : String :=
    match department_code with
    | some c => c ++ "-" ++ today ++ "-"
    | none => "HOSP-" ++ today ++ "-"
  let matching := (db.patients.map (fun p => p.token)).filter
    (fun t => startsWithChars pfx.data t.data)
  let lexMax : Option String := matching.foldl
    (fun acc t =>
      match acc with
      | none => some t
      | some a => if lexLtB a.data t.data then some t else some a)
    none
  let new_number : Nat :=
    match lexMax with
    | none => 1
    | some t => (parseNatChars ((splitDash t.data).getLastD [])).getD 0 + 1
  pfx ++ String.mk (format03d new_number)

/-- `HospitalDatabase.calculate_wait_time` (database.py:251-292).  The SQL
counts waiting patients (in the department, when one is given) satisfying
`priority_level > ? OR (priority_level = ? AND registration_time <
CURRENT_TIMESTAMP)`; then `base_time` is 0/20/10 for priority 1/2/other plus
the department's `current_wait_time` when the department row exists, and the
result is `min(base_time + 15 * patients_ahead, 240)`. -/
def calculate_wait_time (now : Nat) (db : DB) (priority : Nat)
    (department : Option String) : Nat :=
  let patients_ahead :=
    match department with
    | some d => db.patients.countP (fun p => decide (p.status = Status.waiting ∧
        p.department = some d ∧
        (priority < p.priority_level ∨
          (p.priority_level = priority ∧ p.registration_time < now))))
    | none => db.patients.countP (fun p => decide (p.status = Status.waiting ∧
        (priority < p.priority_level ∨
          (p.priority_level = priority ∧ p.registration_time < now))))
  let base_time : Nat := if priority = 1 then 0 else if priority = 2 then 20 else 10
  let base_time :=
    match department with
    | some d =>
      match db.departments.find? (fun dep => dep.department_name == d) with
      | some dep => base_time + dep.current_wait_time
      | none => base_time
    | none => base_time
  min (base_time + patients_ahead * 15) 240

/-- ComputeEstimatedWait as the spec words it (spec.md §4.2, claim C1), for
comparison with `calculate_wait_time`: `countAhead` is the number of waiting
patients that would be served before the new arrival, i.e. of strictly
higher urgency (lower class number) or same class registered earlier. -/
def spec_calculate_wait_time (now : Nat) (db : DB) (priority : Nat)
    (department : Option String) : Nat :=
  let countAhead :=
    match department with
    | some d => db.patients.countP (fun p => decide (p.status = Status.waiting ∧
        p.department = some d ∧
        (p.priority_level < priority ∨
          (p.priority_level = priority ∧ p.registration_time < now))))
    | none => db.patients.countP (fun p => decide (p.status = Status.waiting ∧
        (p.priority_level < priority ∨
          (p.priority_level = priority ∧ p.registration_time < now))))
  let base : Nat := if priority = 1 then 0 else if priority = 2 then 20 else 10
  let base :=
    match department with
    | some d =>
      match db.departments.find? (fun dep => dep.department_name == d) with
      | some dep => base + dep.current_wait_time
      | none => base
    | none => base
  min (base + countAhead * 15) 240

/-- The count predicate of `get_queue_position`: waiting patients with a
strictly lower priority number, or the same number and an earlier
registration, than the given patient. -/
def aheadOf (p : Patient) (q : Patient) : Bool :=
  decide (q.status = Status.waiting ∧
    (q.priority_level < p.priority_level ∨
      (q.priority_level = p.priority_level ∧
        q.registration_time < p.registration_time)))

/-- `HospitalDatabase.get_queue_position` (database.py:294-320): fetch the
patient row by token (no status filter); `-1` when absent; otherwise one
plus the number of waiting patients ahead of it. -/
def get_queue_position (db : DB) (token_number : String) : Int :=
  match db.patients.find? (fun p => p.token == token_number) with
  | none => -1
  | some p => (db.patients.countP (aheadOf p) : Int) + 1

/-- The `patient_data` dictionary accepted by `add_patient` (keys read via
`.get`, hence the `Option` fields and defaults). -/
structure RegData where
  full_name : String
  age : Option Nat := none
  gender : Option String := none
  phone_number : Option String := none
  emergency_contact : Option String := none
  medical_condition : Option String := none
  priority_level : Option Nat := none
  department : Option String := none
  department_code : Option String := none
  is_follow_up : Bool := false
  notes : Option String := none
deriving DecidableEq

/-- `HospitalDatabase.add_patient` (database.py:197-249): generate a token,
compute the estimated wait (priority defaulting to 2), insert the patient
row with status `waiting`, and append a `REGISTERED` history entry.  The
nested `get_queue_position` call at line 244 opens a fresh connection that
cannot see the uncommitted insert, so the recorded after-position is
computed against the pre-insert table (-1 for a fresh token). -/
def add_patient (now : Nat) (today : String) (db : DB) (d : RegData) :
    String × DB :=
  let token := generate_token today db d.department_code
  let estimated_wait := calculate_wait_time now db (d.priority_level.getD 2) d.department
  let newP : Patient :=
    { token := token
      full_name := d.full_name
      age := d.age
      gender := d.gender
      phone_number := d.phone_number
      emergency_contact := d.emergency_contact
      medical_condition := d.medical_condition
      priority_level := d.priority_level.getD 2
      department := d.department
      registration_time := now
      registration_date := today
      status := Status.waiting
      estimated_wait_time := estimated_wait
      notes := d.notes
      is_emergency := d.priority_level == some 1
      is_follow_up := d.is_follow_up }
  let db1 : DB := { db with patients := db.patients ++ [newP] }
  let entry : HistoryEntry :=
    { token := token
      action := "REGISTERED"
      previous_status := none
      new_status := some Status.waiting
      queue_position_before := none
      queue_position_after := some (get_queue_position db token) }
  (token, { db1 with queue_history := db1.queue_history ++ [entry] })

/-- `HospitalQueueSystem.register_patient` (hospital_queue.py:14-39):
priority 1 if emergency else 3 if follow-up else 2, then `add_patient`
(note: it passes no `department_code`, so tokens use the `HOSP` prefix). -/
def register_patient (now : Nat) (today : String) (db : DB) (name : String)
    (age : Option Nat) (condition : Option String)
    (is_emergency : Bool) (is_followup : Bool) (department : Option String) :
    String × DB :=
  let priority : Nat := if is_emergency then 1 else if is_followup then 3 else 2
  add_patient now today db
    { full_name := name
      age := age
      medical_condition := condition
      priority_level := some priority
      department := department
      is_follow_up := is_followup }

/-- `HospitalDatabase.start_consultation` (database.py:398-441): read the old
queue position, conditionally update the row (`WHERE token_number = ? AND
status = 'waiting'`); when a row was affected, log the transition, mark the
named doctor busy on this token (no validation of the doctor), and return
true; otherwise return false with the state untouched. -/
def start_consultation (now : Nat) (db : DB) (token_number : String)
    (doctor_name : Option String) : Bool × DB :=
  let old_position := get_queue_position db token_number
  let rows_affected := db.patients.countP
    (fun p => decide (p.token = token_number ∧ p.status = Status.waiting))
  let patients' := db.patients.map (fun p =>
    if p.token = token_number ∧ p.status = Status.waiting then
      { p with status := Status.in_consultation
               consultation_start_time := some now
               doctor_assigned := doctor_name }
    else p)
  if rows_affected > 0 then
    let entry : HistoryEntry :=
      { token := token_number
        action := "CONSULTATION_STARTED"
        previous_status := some Status.waiting
        new_status := some Status.in_consultation
        queue_position_before := some old_position
        queue_position_after := none }
    let doctors' :=
      match doctor_name with
      | some d => db.doctors.map (fun doc =>
          if doc.doctor_name = d then
            { doc with current_patient_token := some token_number
                       is_available := false }
          else doc)
      | none => db.doctors
    (true, { db with patients := patients'
                     queue_history := db.queue_history ++ [entry]
                     doctors := doctors' })
  else
    (false, db)

/-- `HospitalDatabase.update_daily_statistics` (database.py:642-721): when no
`statistics` row for today exists, aggregate today's completed patients and
insert one row; otherwise do nothing.  Runs on its own connection, so it
sees the patient rows as committed before the enclosing transition. -/
def update_daily_statistics (today : String) (patients : List Patient)
    (stats : List StatRow) : List StatRow :=
  if stats.any (fun r => r.date == today) then stats
  else
    let todays := patients.filter
      (fun p => decide (p.registration_date = today ∧ p.status = Status.completed))
    stats ++
      [{ date := today
         total_patients := todays.length
         emergency_cases := todays.countP (fun p => decide (p.priority_level = 1))
         regular_cases := todays.countP (fun p => decide (p.priority_level = 2))
         follow_up_cases := todays.countP (fun p => decide (p.priority_level = 3))
         doctors_available := (todays.filterMap (fun p => p.doctor_assigned)).dedup.length }]

/-- `HospitalDatabase.complete_consultation` (database.py:443-486): fetch the
patient's assigned doctor, conditionally update the row (`WHERE token_number
= ? AND status = 'in_consultation'`); when a row was affected, log the
transition, free the fetched doctor, run the daily-statistics update, and
return ok true; otherwise return ok false with the state untouched.

The nested `update_daily_statistics` call (line 481) opens a second
connection while this connection's transaction — begun implicitly by the
UPDATE at line 455 and committed only at line 483 — still holds SQLite's
write lock.  Its guard SELECT reads the committed `statistics` table, but
when no row for today exists its INSERT (line 701) needs the write lock held
by this same thread, so it times out and raises
`sqlite3.OperationalError: database is locked`; the `with` block then rolls
the whole transition back.  The pair returned here carries the outcome
(`Except.error` for the raised exception) together with the visible store
after the call, which the rollback leaves equal to the input store. -/
def complete_consultation (now : Nat) (today : String) (db : DB)
    (token_number : String) : Except String Bool × DB :=
  let doctor_name : Option String :=
    match db.patients.find? (fun p => p.token == token_number) with
    | some p => p.doctor_assigned
    | none => none
  let rows_affected := db.patients.countP
    (fun p => decide (p.token = token_number ∧ p.status = Status.in_consultation))
  let patients' := db.patients.map (fun p =>
    if p.token = token_number ∧ p.status = Status.in_consultation then
      { p with status := Status.completed
               consultation_end_time := some now }
    else p)
  if rows_affected > 0 then
    if db.statistics.any (fun r => r.date == today) then
      let entry : HistoryEntry :=
        { token := token_number
          action := "CONSULTATION_COMPLETED"
          previous_status := some Status.in_consultation
          new_status := some Status.completed }
      let doctors' :=
        match doctor_name with
        | some d => db.doctors.map (fun doc =>
            if doc.doctor_name = d then
              { doc with current_patient_token := none
                         is_available := true }
            else doc)
        | none => db.doctors
      (Except.ok true, { db with patients := patients'
                                 queue_history := db.queue_history ++ [entry]
                                 doctors := doctors'
                                 statistics := update_daily_statistics today db.patients db.statistics })
    else
      (Except.error "database is locked", db)
  else
    (Except.ok false, db)

/-- `HospitalDatabase.cancel_patient` (database.py:488-528): fetch the row by
token (false when absent); record the old status and, when it was `waiting`,
the old position; update the status to `cancelled` with `WHERE token_number
= ?` only — no status guard; log and return true. -/
def cancel_patient (db : DB) (token_number : String) (reason : Option String) :
    Bool × DB :=
  match db.patients.find? (fun p => p.token == token_number) with
  | none => (false, db)
  | some p =>
    let old_status := p.status
    let old_position : Option Int :=
      if old_status = Status.waiting then some (get_queue_position db token_number)
      else none
    let rows_affected := db.patients.countP (fun q => decide (q.token = token_number))
    let patients' := db.patients.map (fun q =>
      if q.token = token_number then { q with status := Status.cancelled } else q)
    if rows_affected > 0 then
      let entry : HistoryEntry :=
        { token := token_number
          action := "CANCELLED"
          previous_status := some old_status
          new_status := some Status.cancelled
          queue_position_before := old_position
          queue_position_after := none
          notes := reason }
      (true, { db with patients := patients'
                       queue_history := db.queue_history ++ [entry] })
    else
      (false, db)

/-! Concrete database states used by counterexamples and witnesses. -/

/-- A fresh database (all tables empty). -/
def emptyDB : DB := {}

/-- Three Regular (priority 2) patients waiting, registered at times 0,1,2. -/
def dbC1 : DB := { patients := [
  { token := "R1", full_name := "Reg One", priority_level := 2, registration_time := 0 },
  { token := "R2", full_name := "Reg Two", priority_level := 2, registration_time := 1 },
  { token := "R3", full_name := "Reg Three", priority_level := 2, registration_time := 2 } ] }

/-- One completed patient. -/
def dbC2 : DB := { patients := [
  { token := "T1", full_name := "Done", status := Status.completed } ] }

/-- One patient currently in consultation. -/
def dbC2w : DB := { patients := [
  { token := "W1", full_name := "Busy", status := Status.in_consultation } ] }

/-- A database already holding the token with numeric suffix 999 for the
`GM-20230101-` prefix. -/
def dbC3 : DB := { patients := [
  { token := "GM-20230101-999", full_name := "Old", status := Status.completed } ] }

/-- Registration data for department code `GM`. -/
def regC3 : RegData := { full_name := "New", department_code := some "GM" }

/-- One completed patient and no waiting patients. -/
def dbC4 : DB := { patients := [
  { token := "T1", full_name := "Done", status := Status.completed } ] }

/-- A completed patient, used to query a position for a non-waiting row. -/
def patC4w : Patient :=
  { token := "C1", full_name := "Done", status := Status.completed,
    priority_level := 2, registration_time := 3 }

/-- The completed patient `patC4w` together with one waiting Emergency
patient registered earlier. -/
def dbC4w : DB := { patients := [
  patC4w,
  { token := "W9", full_name := "Wait", priority_level := 1, registration_time := 1 } ] }

/-- Two distinct waiting patients with the same priority class and the same
registration timestamp. -/
def dbC5 : DB := { patients := [
  { token := "A", full_name := "First", priority_level := 2, registration_time := 5 },
  { token := "B", full_name := "Second", priority_level := 2, registration_time := 5 } ] }

/-- A waiting Emergency patient, registered at time 0. -/
def patC5a : Patient :=
  { token := "A1", full_name := "Urgent", priority_level := 1, registration_time := 0 }

/-- A waiting Regular patient, registered at time 0. -/
def patC5b : Patient :=
  { token := "B2", full_name := "Later", priority_level := 2, registration_time := 0 }

/-- The two waiting patients `patC5a` and `patC5b`. -/
def dbC5w : DB := { patients := [patC5a, patC5b] }

/-- One completed patient (nothing is waiting). -/
def dbC6w : DB := { patients := [
  { token := "T1", full_name := "Done", status := Status.completed } ] }

/-- A patient in consultation bound to doctor `Dr. X`. -/
def patC8w : Patient :=
  { token := "T8", full_name := "InCons", status := Status.in_consultation,
    doctor_assigned := some "Dr. X" }

/-- `patC8w` plus a doctors table where `Dr. X` is busy on `T8` and `Dr. Y`
is busy on another token. -/
def dbC8w : DB :=
  { patients := [patC8w],
    doctors := [
      { doctor_name := "Dr. X", is_available := false, current_patient_token := some "T8" },
      { doctor_name := "Dr. Y", is_available := false, current_patient_token := some "Q7" } ] }

/-- A statistics row for 2023-01-01 already exists; a patient is in
consultation. -/
def dbC9w : DB :=
  { patients := [
      { token := "T9", full_name := "ic", status := Status.in_consultation,
        registration_date := "2023-01-01" } ],
    statistics := [ { date := "2023-01-01", total_patients := 5 } ] }

/-- A waiting patient. -/
def patC10w : Patient :=
  { token := "T1", full_name := "Wait", priority_level := 2, registration_time := 0 }

/-- `patC10w` plus a doctor `Dr. A` who is already unavailable and bound to
a different patient token `T9`. -/
def dbC10w : DB :=
  { patients := [patC10w],
    doctors := [
      { doctor_name := "Dr. A", is_available := false, current_patient_token := some "T9" } ] }

/-! Helper lemmas. -/

/-- On a table whose token column is duplicate-free, the `fetchone` of the
`WHERE token_number = ?` query returns exactly the member with that token. -/
theorem find?_token_eq (l : List Patient) (p : Patient) (hp : p ∈ l)
    (hnd : (l.map (fun r => r.token)).Nodup) :
    l.find? (fun r => r.token == p.token) = some p := by
  induction l with
  | nil => cases hp
  | cons a t ih =>
    rw [List.map_cons, List.nodup_cons] at hnd
    rcases List.mem_cons.mp hp with rfl | hpt
    · exact List.find?_cons_of_pos _ (by simp)
    · have hne : (a.token == p.token) = false := by
        rw [beq_eq_false_iff_ne]
        intro he
        exact hnd.1 (he ▸ List.mem_map_of_mem (fun r => r.token) hpt)
      rw [List.find?_cons_of_neg _ (by simp [hne])]
      exact ih hpt hnd.2

/-- A strict version of `countP` monotonicity: a member satisfying the
larger predicate but not the smaller one forces a strictly larger count. -/
theorem countP_lt_of_witness {α : Type} (f g : α → Bool) (l : List α) (a : α)
    (ha : a ∈ l) (hmono : ∀ x ∈ l, f x = true → g x = true)
    (hfa : f a = false) (hga : g a = true) :
    l.countP f < l.countP g := by
  induction l with
  | nil => cases ha
  | cons b t ih =>
    rcases List.mem_cons.mp ha with rfl | hat
    · have hle : t.countP f ≤ t.countP g :=
        List.countP_mono_left (fun x hx => hmono x (List.mem_cons_of_mem _ hx))
      simp [List.countP_cons, hfa, hga]
      omega
    · have hlt := ih hat (fun x hx => hmono x (List.mem_cons_of_mem _ hx))
      by_cases hfb : f b = true
      · have hgb := hmono b (List.mem_cons_self _ _) hfb
        simp [List.countP_cons, hfb, hgb]
        omega
      · have hfb' : f b = false := by simpa using hfb
        rcases hgb : g b <;> simp [List.countP_cons, hfb', hgb] <;> omega

/-- Once a statistics row for date `d` exists, `update_daily_statistics`
neither modifies nor replaces it, and it keeps dates pairwise distinct. -/
theorem update_stats_preserves (today d : String) (patients : List Patient)
    (stats : List StatRow)
    (hex : ∃ r ∈ stats, r.date = d)
    (hu : stats.Pairwise (fun a b => a.date ≠ b.date)) :
    (update_daily_statistics today patients stats).filter (fun r => r.date == d) =
      stats.filter (fun r => r.date == d) ∧
    (update_daily_statistics today patients stats).Pairwise
      (fun a b => a.date ≠ b.date) := by
  by_cases hany : stats.any (fun r => r.date == today)
  · simp [update_daily_statistics, hany]
    exact hu
  · have hno : ∀ r ∈ stats, r.date ≠ today := by
      intro r hr he
      exact hany (List.any_eq_true.mpr ⟨r, hr, by simp [he]⟩)
    have htd : today ≠ d := by
      obtain ⟨r, hr, hrd⟩ := hex
      intro he
      exact hno r hr (by rw [hrd, he])
    constructor
    · rw [update_daily_statistics, if_neg hany, List.filter_append]
      simp [htd]
    · rw [update_daily_statistics, if_neg hany, List.pairwise_append]
      refine ⟨hu, by simp, ?_⟩
      intro a ha b hb
      simp only [List.mem_singleton] at hb
      subst hb
      simpa using hno a ha

/-! Claim theorems. -/

/-- C1 (code bug): with three Regular (priority 2) patients waiting and no
department, `calculate_wait_time` for a new Emergency (priority 1) arrival
returns 45 — it counts the three *less* urgent waiting patients via
`priority_level > ?` — whereas the claimed formula (countAhead = patients of
strictly higher urgency plus same-class earlier registrations) yields 0. -/
theorem c1_wait_time_counts_lower_urgency :
    calculate_wait_time 10 dbC1 1 none = 45 ∧
    spec_calculate_wait_time 10 dbC1 1 none = 0 := by decide

/-- C2 counterexample: `cancel_patient` on a `completed` patient succeeds
(returns true) and moves the patient to `cancelled`, contradicting the claim
that cancellation fails from any status other than `waiting`. -/
theorem c2_counterexample :
    (∃ p ∈ dbC2.patients, p.token = "T1" ∧ p.status = Status.completed) ∧
    (cancel_patient dbC2 "T1" none).1 = true ∧
    ∀ q ∈ (cancel_patient dbC2 "T1" none).2.patients, q.status = Status.cancelled := by
  decide

/-- C2 (amended): `cancel_patient` fails only on an unknown token; for any
existing patient — whatever its status — it returns true and sets the
status to `cancelled` (the UPDATE has no `status = 'waiting'` guard). -/
theorem cancel_patient_succeeds_for_any_existing (db : DB) (t : String)
    (reason : Option String)
    (h : ∃ p ∈ db.patients, p.token = t) :
    (cancel_patient db t reason).1 = true ∧
    ∀ q ∈ (cancel_patient db t reason).2.patients,
      q.token = t → q.status = Status.cancelled := by
  obtain ⟨p, hp, hpt⟩ := h
  have hsome : (db.patients.find? (fun r => r.token == t)).isSome :=
    List.find?_isSome.mpr ⟨p, hp, by simp [hpt]⟩
  obtain ⟨r, hr⟩ := Option.isSome_iff_exists.mp hsome
  have hcount : 0 < db.patients.countP (fun q => decide (q.token = t)) :=
    List.countP_pos_iff.mpr ⟨p, hp, by simp [hpt]⟩
  constructor
  · simp [cancel_patient, hr, hcount]
  · intro q hq hqt
    have hq' : q ∈ db.patients.map (fun x =>
        if x.token = t then { x with status := Status.cancelled } else x) := by
      simpa [cancel_patient, hr, hcount] using hq
    obtain ⟨orig, horig, heq⟩ := List.mem_map.mp hq'
    by_cases ho : orig.token = t
    · rw [← heq]
      simp [ho]
    · rw [← heq, if_neg ho] at hqt
      exact absurd hqt ho

/-- C2 witness: cancelling the in-consultation patient of `dbC2w` succeeds
and marks it cancelled. -/
theorem c2_witness :
    (cancel_patient dbC2w "W1" (some "left")).1 = true ∧
    ∀ q ∈ (cancel_patient dbC2w "W1" (some "left")).2.patients,
      q.token = "W1" → q.status = Status.cancelled :=
  cancel_patient_succeeds_for_any_existing dbC2w "W1" (some "left") (by decide)

/-- C3 (code bug): with token `GM-20230101-999` present, a registration under
code `GM` produces `GM-20230101-1000`; the next `generate_token` call then
reproduces the very same `GM-20230101-1000` (the lexicographic `ORDER BY
token_number DESC` scan still returns the `999` row), so the sequence fails
to increase and the token collides with the one just registered. -/
theorem c3_token_collision_at_1000 :
    (add_patient 5 "20230101" dbC3 regC3).1 = "GM-20230101-1000" ∧
    (add_patient 5 "20230101" dbC3 regC3).1 ∈
      (add_patient 5 "20230101" dbC3 regC3).2.patients.map (fun p => p.token) ∧
    generate_token "20230101" (add_patient 5 "20230101" dbC3 regC3).2 (some "GM") =
      (add_patient 5 "20230101" dbC3 regC3).1 := by
  decide

/-- C4 counterexample: `get_queue_position` on a completed (not waiting)
patient returns 1, not the sentinel -1 the claim requires. -/
theorem c4_counterexample :
    (∃ p ∈ dbC4.patients, p.token = "T1" ∧ p.status = Status.completed) ∧
    get_queue_position dbC4 "T1" = 1 ∧ get_queue_position dbC4 "T1" ≠ -1 := by
  decide

/-- C4 (amended): `get_queue_position` returns -1 only for an absent token;
for any existing patient, whatever its status, it returns one plus the
number of waiting patients ahead of it (and in particular never -1). -/
theorem queue_position_of_existing (db : DB) (p : Patient)
    (hp : p ∈ db.patients)
    (hnd : (db.patients.map (fun r => r.token)).Nodup) :
    get_queue_position db p.token = (db.patients.countP (aheadOf p) : Int) + 1 ∧
    get_queue_position db p.token ≠ -1 := by
  have hfind := find?_token_eq db.patients p hp hnd
  constructor
  · simp [get_queue_position, hfind]
  · simp only [get_queue_position, hfind]
    omega

/-- C4 witness: the completed patient of `dbC4w` gets position 2 (one
waiting Emergency patient ahead), not -1. -/
theorem c4_witness :
    get_queue_position dbC4w patC4w.token =
      (dbC4w.patients.countP (aheadOf patC4w) : Int) + 1 ∧
    get_queue_position dbC4w patC4w.token ≠ -1 :=
  queue_position_of_existing dbC4w patC4w (by decide) (by decide)

/-- C5 counterexample: two distinct waiting patients with the same priority
class and the same registration timestamp both get position 1, so
`get_queue_position` is not injective on the waiting set. -/
theorem c5_counterexample :
    (∀ p ∈ dbC5.patients, p.status = Status.waiting) ∧
    dbC5.patients.map (fun p => p.token) = ["A", "B"] ∧
    get_queue_position dbC5 "A" = 1 ∧ get_queue_position dbC5 "B" = 1 := by
  decide

/-- C5 (amended): on waiting patients whose (priority class, registration
time) pairs differ, `get_queue_position` strictly increases with (priority
class ascending, registration time ascending); hence no two such patients
share a position. -/
theorem queue_position_strict_mono (db : DB) (p q : Patient)
    (hp : p ∈ db.patients) (hq : q ∈ db.patients)
    (hnd : (db.patients.map (fun r => r.token)).Nodup)
    (hpw : p.status = Status.waiting) (_hqw : q.status = Status.waiting)
    (hlt : p.priority_level < q.priority_level ∨
      (p.priority_level = q.priority_level ∧
        p.registration_time < q.registration_time)) :
    get_queue_position db p.token < get_queue_position db q.token := by
  have hfp := find?_token_eq db.patients p hp hnd
  have hfq := find?_token_eq db.patients q hq hnd
  have hmono : ∀ x ∈ db.patients, aheadOf p x = true → aheadOf q x = true := by
    intro x hx h
    simp only [aheadOf, decide_eq_true_eq] at h ⊢
    obtain ⟨hw, hord⟩ := h
    exact ⟨hw, by omega⟩
  have hfa : aheadOf p p = false := by
    simp only [aheadOf, decide_eq_false_iff_not]
    rintro ⟨-, hord⟩
    omega
  have hga : aheadOf q p = true := by
    simp only [aheadOf, decide_eq_true_eq]
    exact ⟨hpw, hlt⟩
  have hcount := countP_lt_of_witness (aheadOf p) (aheadOf q) db.patients p hp hmono hfa hga
  simp only [get_queue_position, hfp, hfq]
  omega

/-- C5 witness: in `dbC5w` the waiting Emergency patient is strictly before
the waiting Regular patient. -/
theorem c5_witness :
    get_queue_position dbC5w patC5a.token < get_queue_position dbC5w patC5b.token :=
  queue_position_strict_mono dbC5w patC5a patC5b (by decide) (by decide) (by decide)
    (by decide) (by decide) (by decide)

/-- C6 (confirmed): when no patient with the token is waiting (absent, or in
any other status), `start_consultation` returns false and the whole store is
unchanged — no patient row, history entry or doctor record is touched. -/
theorem start_consultation_fails_false_unchanged (now : Nat) (db : DB) (t : String)
    (d : Option String)
    (h : ∀ p ∈ db.patients, p.token = t → p.status ≠ Status.waiting) :
    start_consultation now db t d = (false, db) := by
  have hc : db.patients.countP
      (fun p => decide (p.token = t ∧ p.status = Status.waiting)) = 0 := by
    rw [List.countP_eq_zero]
    intro p hp
    simp only [decide_eq_true_eq, not_and]
    intro hpt
    exact h p hp hpt
  simp only [start_consultation, hc]
  simp

/-- C6 witness: starting a consultation for the completed patient of `dbC6w`
returns false and leaves the store unchanged. -/
theorem c6_witness : start_consultation 5 dbC6w "T1" none = (false, dbC6w) :=
  start_consultation_fails_false_unchanged 5 dbC6w "T1" none (by decide)

/-- C7 counterexample: registering with an empty name succeeds — a token is
returned and a patient row with empty `full_name` is inserted with status
`waiting`; no validation error exists anywhere on this path. -/
theorem c7_counterexample :
    (register_patient 0 "20230101" emptyDB "" none none false false none).1 =
      "HOSP-20230101-001" ∧
    (register_patient 0 "20230101" emptyDB "" none none false false none).2.patients.map
      (fun p => p.full_name) = [""] ∧
    (register_patient 0 "20230101" emptyDB "" none none false false none).2.patients.map
      (fun p => p.status) = [Status.waiting] := by
  decide

/-- C7 (amended): `register_patient` performs no name validation: for every
name, the empty string included, it inserts exactly one new patient row
carrying that name with status `waiting`. -/
theorem register_patient_no_name_validation (now : Nat) (today : String) (db : DB)
    (name : String) (age : Option Nat) (condition : Option String)
    (is_emergency : Bool) (is_followup : Bool) (department : Option String) :
    ∃ newP : Patient,
      (register_patient now today db name age condition
        is_emergency is_followup department).2.patients = db.patients ++ [newP] ∧
      newP.full_name = name ∧ newP.status = Status.waiting :=
  ⟨_, rfl, rfl, rfl⟩

/-- C8 (code bug): on `dbC8w` — patient `T8` in consultation with bound
doctor `Dr. X` and an empty statistics table, the only kind of state the
program can reach, since the statistics INSERT inside this very transaction
is the table's only writer — `complete_consultation` does not complete the
patient or free the doctor: the nested statistics INSERT on a second
connection blocks on the write lock held by the enclosing uncommitted
transaction, raises `database is locked`, and the transition rolls back,
leaving the store unchanged. -/
theorem c8_completion_deadlocks :
    (∃ p ∈ dbC8w.patients, p.token = "T8" ∧ p.status = Status.in_consultation ∧
      p.doctor_assigned = some "Dr. X") ∧
    dbC8w.statistics = [] ∧
    complete_consultation 7 "20230101" dbC8w "T8" =
      (Except.error "database is locked", dbC8w) :=
  ⟨by decide, rfl, rfl⟩

/-- C9 (confirmed): once a statistics row for a date exists, neither
`update_daily_statistics` nor a subsequent `complete_consultation` modifies
or replaces it, and the statistics table keeps at most one row per date. -/
theorem daily_statistics_write_once (now : Nat) (today d : String) (db : DB)
    (t : String)
    (hex : ∃ r ∈ db.statistics, r.date = d)
    (hu : db.statistics.Pairwise (fun a b => a.date ≠ b.date)) :
    (update_daily_statistics today db.patients db.statistics).filter
        (fun r => r.date == d) = db.statistics.filter (fun r => r.date == d) ∧
    (update_daily_statistics today db.patients db.statistics).Pairwise
        (fun a b => a.date ≠ b.date) ∧
    (complete_consultation now today db t).2.statistics.filter
        (fun r => r.date == d) = db.statistics.filter (fun r => r.date == d) ∧
    (complete_consultation now today db t).2.statistics.Pairwise
        (fun a b => a.date ≠ b.date) := by
  obtain ⟨h1, h2⟩ := update_stats_preserves today d db.patients db.statistics hex hu
  refine ⟨h1, h2, ?_⟩
  by_cases hc : ∃ a ∈ db.patients, a.token = t ∧ a.status = Status.in_consultation
  · cases hany : db.statistics.any (fun r => r.date == today) with
    | true =>
      have hstat : (complete_consultation now today db t).2.statistics =
          update_daily_statistics today db.patients db.statistics := by
        rcases hf : db.patients.find? (fun q => q.token == t) with _ | p'
        · simp [complete_consultation, hf, hc, hany]
        · rcases hda : p'.doctor_assigned with _ | dn
          · simp [complete_consultation, hf, hda, hc, hany]
          · simp [complete_consultation, hf, hda, hc, hany]
      rw [hstat]
      exact ⟨h1, h2⟩
    | false =>
      have hstat : (complete_consultation now today db t).2.statistics =
          db.statistics := by
        rcases hf : db.patients.find? (fun q => q.token == t) with _ | p'
        · simp [complete_consultation, hf, hc, hany]
        · rcases hda : p'.doctor_assigned with _ | dn
          · simp [complete_consultation, hf, hda, hc, hany]
          · simp [complete_consultation, hf, hda, hc, hany]
      rw [hstat]
      exact ⟨rfl, hu⟩
  · have hstat : (complete_consultation now today db t).2.statistics = db.statistics := by
      rcases hf : db.patients.find? (fun q => q.token == t) with _ | p'
      · simp [complete_consultation, hf, hc]
      · rcases hda : p'.doctor_assigned with _ | dn
        · simp [complete_consultation, hf, hda, hc]
        · simp [complete_consultation, hf, hda, hc]
    rw [hstat]
    exact ⟨rfl, hu⟩

/-- C9 witness: with a 2023-01-01 row cached, completing `T9` on 2023-01-02
leaves the 2023-01-01 row intact and dates pairwise distinct. -/
theorem c9_witness :
    (update_daily_statistics "2023-01-02" dbC9w.patients dbC9w.statistics).filter
        (fun r => r.date == "2023-01-01") =
      dbC9w.statistics.filter (fun r => r.date == "2023-01-01") ∧
    (update_daily_statistics "2023-01-02" dbC9w.patients dbC9w.statistics).Pairwise
        (fun a b => a.date ≠ b.date) ∧
    (complete_consultation 3 "2023-01-02" dbC9w "T9").2.statistics.filter
        (fun r => r.date == "2023-01-01") =
      dbC9w.statistics.filter (fun r => r.date == "2023-01-01") ∧
    (complete_consultation 3 "2023-01-02" dbC9w "T9").2.statistics.Pairwise
        (fun a b => a.date ≠ b.date) :=
  daily_statistics_write_once 3 "2023-01-02" "2023-01-01" dbC9w "T9"
    (by decide) (by simp [dbC9w])

/-- C10 (confirmed): for a waiting patient and an arbitrary doctor name,
`start_consultation` succeeds without validating the doctor: every doctor
row with that name — available or not, bound elsewhere or not — has its
current-patient binding overwritten with the new token and is marked
unavailable; if no doctor of that name exists, the doctors table is
untouched and the call still succeeds. -/
theorem start_consultation_ignores_doctor_state (now : Nat) (db : DB)
    (p : Patient) (d : String)
    (hp : p ∈ db.patients) (hw : p.status = Status.waiting) :
    (start_consultation now db p.token (some d)).1 = true ∧
    (start_consultation now db p.token (some d)).2.doctors =
      db.doctors.map (fun doc =>
        if doc.doctor_name = d then
          { doc with current_patient_token := some p.token, is_available := false }
        else doc) ∧
    ((∀ doc ∈ db.doctors, doc.doctor_name ≠ d) →
      (start_consultation now db p.token (some d)).2.doctors = db.doctors) := by
  have hex : ∃ a ∈ db.patients, a.token = p.token ∧ a.status = Status.waiting :=
    ⟨p, hp, rfl, hw⟩
  have hdoc : (start_consultation now db p.token (some d)).2.doctors =
      db.doctors.map (fun doc =>
        if doc.doctor_name = d then
          { doc with current_patient_token := some p.token, is_available := false }
        else doc) := by
    simp [start_consultation, hex]
  refine ⟨by simp [start_consultation, hex], hdoc, ?_⟩
  intro hnone
  rw [hdoc]
  calc db.doctors.map (fun doc =>
        if doc.doctor_name = d then
          { doc with current_patient_token := some p.token, is_available := false }
        else doc)
      = db.doctors.map id :=
        List.map_congr_left (fun doc hdocm => by simp [hnone doc hdocm])
    _ = db.doctors := List.map_id _

/-- C10 witness: starting `T1` with doctor `Dr. A`, who is unavailable and
bound to `T9`, still succeeds and silently rebinds `Dr. A` to `T1`. -/
theorem c10_witness :
    (start_consultation 4 dbC10w patC10w.token (some "Dr. A")).1 = true ∧
    (start_consultation 4 dbC10w patC10w.token (some "Dr. A")).2.doctors =
      dbC10w.doctors.map (fun doc =>
        if doc.doctor_name = "Dr. A" then
          { doc with current_patient_token := some patC10w.token, is_available := false }
        else doc) ∧
    ((∀ doc ∈ dbC10w.doctors, doc.doctor_name ≠ "Dr. A") →
      (start_consultation 4 dbC10w patC10w.token (some "Dr. A")).2.doctors =
        dbC10w.doctors) :=
  start_consultation_ignores_doctor_state 4 dbC10w patC10w "Dr. A" (by decide) rfl
